import Mathlib

/-!
Shallow embedding of `src/public/simulation.py` (bison population simulation).

Grids are total functions `Fin h → Fin w → ℚ`; machine floats are modelled by
exact rationals.  The float literals of the source appear as the corresponding
rationals (`0.1 = 1/10`, `3.14 = 157/50`, `1e-10 = 1/10^10`, ...).

Two pieces of the source are inherently non-rational or stochastic and are
handled as follows:
* the Euclidean-distance weights of the migration kernel involve `sqrt`, so the
  kernel builder is parametrised by the distance function `dist`; theorems
  instantiate it with `Real.sqrt` of the squared offset;
* the Poisson sampling in the population seeding (`self.rng.poisson(expected)`)
  is a seeded random source; its realised draws enter the embedding as an
  explicit parameter `draws`, exactly as the spec asks for an injectable random
  source.  Everything downstream of the draw (masking of invalid cells,
  renormalisation to the target headcount, assignment into the zero grid) is
  embedded from the source.
-/

/- Batteries marks the arithmetic of `Rat` `@[irreducible]`, which blocks kernel
evaluation by `decide`; restore the default reducibility for this file so
concrete grids can be evaluated. -/
attribute [local semireducible] Rat.add Rat.mul Rat.inv Rat.sub

namespace BisonSim

/-- `np.clip(x, lo, hi)` for rationals: `min hi (max lo x)`. -/
def clip (x lo hi : ℚ) : ℚ := min hi (max lo x)

/-- Python `int(x)`: truncation toward zero. -/
def pyInt (q : ℚ) : ℤ := if 0 ≤ q then ⌊q⌋ else ⌈q⌉

/-- The `SimulationConfig` dataclass with its default field values. -/
structure SimulationConfig where
  digestibility_factor : ℚ := 1
  annual_growth_factor : ℚ := 2/5
  utilization_factor : ℚ := 1/2
  body_mass_kg : ℚ := 700
  daily_intake_rate : ℚ := 1/50
  max_growth_rate : ℚ := 1/10
  starvation_threshold : ℚ := 1/5
  min_viable_density : ℚ := 1/20
  pioneer_bonus : ℚ := 1/20
  annual_migration_km : ℚ := 50
  diffusion_rate : ℚ := 3/20
  food_preference_weight : ℚ := 1

/-- The `annual_intake_tonnes` property: `body_mass_kg * daily_intake_rate * 365 / 1000`. -/
def SimulationConfig.annual_intake_tonnes (c : SimulationConfig) : ℚ :=
  c.body_mass_kg * c.daily_intake_rate * 365 / 1000

/-- The config produced by `SimulationConfig()`. -/
def defaultConfig : SimulationConfig := {}

/-- A 2-D float array of shape `(h, w)`. -/
abbrev Grid (h w : ℕ) := Fin h → Fin w → ℚ

variable {h w : ℕ}

/-- `arr.sum()` for a grid. -/
def gridSum (P : Grid h w) : ℚ := ∑ i, ∑ j, P i j

/-- `kernel_radius = min(5, max(2, int(cells_per_year / 4)))` where
`cells_per_year = annual_migration_km / cell_size_km`
(`Simulation._create_migration_kernel`, lines 143-144). -/
def kernelRadius (mig cell : ℚ) : ℕ :=
  (min 5 (max 2 (pyInt (mig / cell / 4)))).toNat

/-- The kernel radius as the SPEC words it: `clamp(round(cellsPerYear/4), 2, 5)`.
Kept separate from `kernelRadius` (which embeds the code) for comparison. -/
def kernelRadiusSpec (mig cell : ℚ) : ℕ :=
  (min 5 (max 2 (round (mig / cell / 4)))).toNat

/-- `epsilon = 1e-10` in `Simulation._update_population`. -/
def epsilon : ℚ := 1/10^10

/-- The growth factor of one cell after the branch-selection `np.where` chain and the
empty-cell zeroing, but before the final clip (`Simulation._update_population`,
lines 246-269).  `pop`, `cap`, `food` are the cell's population, carrying capacity
and food satisfaction. -/
def growthFactorPreClip (cfg : SimulationConfig) (pop cap food : ℚ) : ℚ :=
  let capacityRatio := pop / (cap + epsilon)
  let effectiveRate :=
    if capacityRatio < 1/2 then cfg.max_growth_rate + cfg.pioneer_bonus
    else cfg.max_growth_rate
  let logistic := effectiveRate * food * (1 - capacityRatio)
  let alleeDecline := -(1/5) * (cfg.min_viable_density - pop) / cfg.min_viable_density
  let g1 :=
    if cfg.min_viable_density ≤ pop ∧ cfg.starvation_threshold < food then logistic
    else if cfg.starvation_threshold < food then alleeDecline
    else logistic
  let g2 :=
    if cfg.starvation_threshold < food then g1
    else -cfg.max_growth_rate * (1 - food / cfg.starvation_threshold)
  if pop < epsilon then 0 else g2

/-- `Simulation._update_population`: clip the growth factor to `[-0.3, 0.15]` and the
new population `pop * (1 + growth)` to `[0, 1e6]`. -/
def updatePopulation (cfg : SimulationConfig) (P cap food : Grid h w) : Grid h w :=
  fun i j =>
    clip (P i j * (1 + clip (growthFactorPreClip cfg (P i j) (cap i j) (food i j))
      (-(3/10)) (3/20))) 0 1000000

/-- Zero-extension of a grid to all integer indices (the zero padding used by
`scipy.signal.fftconvolve(..., mode='same')`). -/
def zext (P : Grid h w) (i j : ℤ) : ℚ :=
  if hi : 0 ≤ i ∧ i < (h : ℤ) then
    if hj : 0 ≤ j ∧ j < (w : ℤ) then
      P ⟨i.toNat, by omega⟩ ⟨j.toNat, by omega⟩
    else 0
  else 0

/-- `signal.fftconvolve(population, kernel, mode='same')` as an exact direct
convolution; `K dy dx` is the kernel weight at offset `(dy, dx)`, supported on
`[-r, r] × [-r, r]`. -/
def diffuse (K : ℤ → ℤ → ℚ) (r : ℕ) (P : Grid h w) : Grid h w :=
  fun i j =>
    ∑ dy ∈ Finset.Icc (-(r : ℤ)) r, ∑ dx ∈ Finset.Icc (-(r : ℤ)) r,
      K dy dx * zext P ((i.val : ℤ) - dy) ((j.val : ℤ) - dx)

/-- Predecessor row index clamped at 0; models the edge padding of
`np.diff(..., prepend=first_row)` (the gradient at row 0 is then 0). -/
def prevIdx {n : ℕ} (i : Fin n) : Fin n :=
  if i.val = 0 then i else ⟨i.val - 1, by have := i.isLt; omega⟩

/-- Index shifted by `s` with wraparound, as in `np.roll`. -/
def rollIdx {n : ℕ} (i : Fin n) (s : ℕ) : Fin n :=
  ⟨(i.val + s) % n, Nat.mod_lt _ i.pos⟩

/-- `Simulation._migrate`, lines 202-228: diffusion, directional bias toward higher
carrying capacity, then water/edge masking — everything before the conservation
rescale. -/
def migratePreRescale (cfg : SimulationConfig) (K : ℤ → ℤ → ℚ) (r : ℕ)
    (maxB P cap : Grid h w) : Grid h w :=
  fun i j =>
    if maxB i j ≤ 0 ∨ i.val = 0 ∨ i.val = h - 1 ∨ j.val = 0 ∨ j.val = w - 1 then 0
    else
      let D := diffuse K r P
      let gy := cap i j - cap (prevIdx i) j
      let gx := cap i j - cap i (prevIdx j)
      let bias := cfg.food_preference_weight * cfg.diffusion_rate * (3/10)
      let upW := clip (-gy * bias) 0 (1/5)
      let downW := clip (gy * bias) 0 (1/5)
      let leftW := clip (-gx * bias) 0 (1/5)
      let rightW := clip (gx * bias) 0 (1/5)
      let stayW := 1 - (upW + downW + leftW + rightW)
      stayW * D i j + upW * D (rollIdx i 1) j + downW * D (rollIdx i (h - 1)) j
        + leftW * D i (rollIdx j 1) + rightW * D i (rollIdx j (w - 1))

/-- `Simulation._migrate`: return the population unchanged when its total is below
`0.1`; otherwise diffuse, bias, mask, and rescale by `total_before / total_after`
whenever `total_after > 0`. -/
def migrate (cfg : SimulationConfig) (K : ℤ → ℤ → ℚ) (r : ℕ)
    (maxB P cap : Grid h w) : Grid h w :=
  if gridSum P < 1/10 then P
  else if 0 < gridSum (migratePreRescale cfg K r maxB P cap) then
    fun i j => migratePreRescale cfg K r maxB P cap i j *
      (gridSum P / gridSum (migratePreRescale cfg K r maxB P cap))
  else migratePreRescale cfg K r maxB P cap

/-- One call of `Simulation.step` on the grids: returns the new
`(biomass, population)` pair.  Food accounting and the carrying capacity are
computed from the pre-step biomass, the biomass is regrown and consumed, then the
population migrates and grows. -/
def stepGrids (cfg : SimulationConfig) (K : ℤ → ℤ → ℚ) (r : ℕ)
    (maxB B P : Grid h w) : Grid h w × Grid h w :=
  let harvest : Grid h w := fun i j => B i j * cfg.digestibility_factor * cfg.utilization_factor
  let demand : Grid h w := fun i j => P i j * cfg.annual_intake_tonnes
  let consumed : Grid h w := fun i j => min (harvest i j) (demand i j)
  let food : Grid h w := fun i j =>
    if 0 < demand i j then clip (consumed i j / demand i j) 0 1 else 1
  let cap : Grid h w := fun i j => harvest i j / cfg.annual_intake_tonnes
  let B2 : Grid h w := fun i j =>
    max 0 (B i j + (maxB i j - B i j) * cfg.annual_growth_factor - consumed i j)
  let P2 := updatePopulation cfg (migrate cfg K r maxB P cap) cap food
  (B2, P2)

/-- Floor of the real square root of a non-negative rational, computed with
`Nat.sqrt`: `⌊√(n/d)⌋ = ⌊√(n*d)/d⌋ = Nat.sqrt (n*d) / d`.  This embeds
`int(np.sqrt(q))` for `q ≥ 0` (see `ratSqrtFloor_eq_floor_sqrt`). -/
def ratSqrtFloor (q : ℚ) : ℕ := Nat.sqrt (q.num.toNat * q.den) / q.den

/-- The clamping part of `Simulation._calculate_release_radius` (lines 92-97), as a
function of the window-averaged carrying capacity `avg` and the target headcount:
`cells_needed = total/(avg*0.8)` when `avg > 0` else `2000`, floored at
`total*3`, then `min(300, max(30, int(sqrt(cells_needed / 3.14))))`. -/
def radiusFromCc (avg : ℚ) (total : ℕ) : ℕ :=
  min 300 (max 30 (ratSqrtFloor
    (max (if 0 < avg then (total : ℚ) / (avg * (4/5)) else 2000) (3 * (total : ℚ))
      / (157/50))))

/-- The sampling-window part of `Simulation._calculate_release_radius` (lines 79-90):
mean biomass over the land cells (`> 0`) of the radius-50 window around
`(row, col)`, converted to a carrying capacity; `0.1` when the window has no
land. -/
def avgCarryCap (cfg : SimulationConfig) (bio : Grid h w) (row col : ℤ) : ℚ :=
  let land : Finset (Fin h × Fin w) :=
    Finset.univ.filter (fun p =>
      (row - 50 ≤ (p.1.val : ℤ) ∧ (p.1.val : ℤ) < row + 50) ∧
      (col - 50 ≤ (p.2.val : ℤ) ∧ (p.2.val : ℤ) < col + 50) ∧ 0 < bio p.1 p.2)
  if land.Nonempty then
    ((∑ p ∈ land, bio p.1 p.2) / land.card) * cfg.utilization_factor /
      cfg.annual_intake_tonnes
  else 1/10

/-- `Simulation._calculate_release_radius` in full. -/
def computeReleaseRadius (cfg : SimulationConfig) (bio : Grid h w) (row col : ℤ)
    (total : ℕ) : ℕ :=
  radiusFromCc (avgCarryCap cfg bio row col) total

open Classical in
/-- The release radius as the SPEC words it:
`clamp(round(sqrt(area / π)), 30, 300)` with
`area = max(total/(cc*0.8), total*3)`.  Kept separate from `radiusFromCc`
(which embeds the code) for comparison. -/
noncomputable def radiusFromCcSpec (avg : ℚ) (total : ℕ) : ℕ :=
  (min 300 (max 30 (round (Real.sqrt
    (max ((total : ℝ) / ((avg : ℝ) * (4/5))) (3 * (total : ℝ)) / Real.pi))))).toNat

/-- Membership of a grid cell in the seeding window
`rows = [max(0, cr-radius), min(h, cr+radius+1))` ×
`cols = [max(0, cc-radius), min(w, cc+radius+1))`
(`Simulation._initialize_population`, lines 107-108); the grid bounds are carried
by the `Fin` indices. -/
abbrev inSeedWindow (cr cc : ℤ) (radius : ℕ) (i : Fin h) (j : Fin w) : Prop :=
  cr - radius ≤ (i.val : ℤ) ∧ (i.val : ℤ) ≤ cr + radius ∧
  cc - radius ≤ (j.val : ℤ) ∧ (j.val : ℤ) ≤ cc + radius

/-- The `valid_mask` of `Simulation._initialize_population` (lines 112-117): within
the window, within Euclidean distance `radius` of the center (compared on
squares, which is exact), and on land (`biomass > 0`). -/
abbrev seedValid (bio : Grid h w) (cr cc : ℤ) (radius : ℕ) (i : Fin h) (j : Fin w) :
    Prop :=
  inSeedWindow cr cc radius i j ∧
  ((i.val : ℤ) - cr)^2 + ((j.val : ℤ) - cc)^2 ≤ (radius : ℤ)^2 ∧
  0 < bio i j

/-- `Simulation._initialize_population` with the realised Poisson draws supplied as
`draws`: invalid cells are zeroed, the draws are renormalised so their total is
exactly `total` (when positive), and only window cells are written into the zero
grid.  Returns the all-zero grid when no cell is valid. -/
def seedPopulation (bio : Grid h w) (cr cc : ℤ) (radius : ℕ) (total : ℕ)
    (draws : Fin h → Fin w → ℕ) : Grid h w :=
  if ∀ i j, ¬ seedValid bio cr cc radius i j then fun _ _ => 0
  else
    fun i j =>
      if inSeedWindow cr cc radius i j then
        let actual : Fin h → Fin w → ℕ := fun i j =>
          if seedValid bio cr cc radius i j then draws i j else 0
        let S : ℕ := ∑ a, ∑ b, actual a b
        if 0 < S then (actual i j : ℚ) * total / S else (actual i j : ℚ)
      else 0

/-- The state held by a `Simulation` object once `initialize` has run.  The
migration kernel is stored as the offset-indexed weight array `kernel` with
radius `kradius` (its numeric construction, which involves irrational Euclidean
distances, is modelled separately over `ℝ` by `migrationKernelEntry`). -/
structure SimState (h w : ℕ) where
  cfg : SimulationConfig
  kernel : ℤ → ℤ → ℚ
  kradius : ℕ
  biomass : Grid h w
  maxBiomass : Grid h w
  population : Grid h w
  cellSize : ℚ
  year : ℕ

/-- `Simulation.initialize`: record the biomass as both current and ceiling grid,
compute the release radius, seed the population, and store the migration kernel
(whose weight array is supplied as `K`). -/
def initState (cfg : SimulationConfig) (bio : Grid h w) (cellSize : ℚ) (row col : ℤ)
    (total : ℕ) (K : ℤ → ℤ → ℚ) (draws : Fin h → Fin w → ℕ) : SimState h w :=
  { cfg := cfg
    kernel := K
    kradius := kernelRadius cfg.annual_migration_km cellSize
    biomass := bio
    maxBiomass := bio
    population := seedPopulation bio row col
      (computeReleaseRadius cfg bio row col total) total draws
    cellSize := cellSize
    year := 0 }

/-- `Simulation.step` on the whole state. -/
def stepState (s : SimState h w) : SimState h w :=
  { s with
    biomass := (stepGrids s.cfg s.kernel s.kradius s.maxBiomass s.biomass s.population).1
    population := (stepGrids s.cfg s.kernel s.kradius s.maxBiomass s.biomass s.population).2
    year := s.year + 1 }

/-- `Simulation._get_state` / the dict serialised by the module-level functions. -/
structure Snapshot (h w : ℕ) where
  year : ℕ
  biomass : Grid h w
  population : Grid h w
  totalPopulation : ℚ
  occupiedCells : ℕ

/-- Build a `Snapshot` from the state (`occupied_cells = (population > 0.1).sum()`). -/
def getState (s : SimState h w) : Snapshot h w :=
  { year := s.year
    biomass := s.biomass
    population := s.population
    totalPopulation := gridSum s.population
    occupiedCells := (Finset.univ.filter
      (fun p : Fin h × Fin w => 1/10 < s.population p.1 p.2)).card }

/-- The module-level mutable globals `_sim`, `_biomass_data`, `_cell_size_km`. -/
structure PyGlobals (h w : ℕ) where
  biomassData : Option (Grid h w)
  cellSizeKm : ℚ
  sim : Option (SimState h w)

/-- `step_simulation(years)`: an error result when no simulation was started;
otherwise run `step()` `years` times.  When `years = 0` the loop body never
runs, the local `state` is still `None`, and subscripting it raises — modelled
as the second error result. -/
def stepSimulation (g : PyGlobals h w) (years : ℕ) :
    Except String (Snapshot h w) × PyGlobals h w :=
  match g.sim with
  | none => (Except.error "Simulation not started", g)
  | some s =>
    let s2 := stepState^[years] s
    let g2 : PyGlobals h w := { g with sim := some s2 }
    if years = 0 then (Except.error "TypeError: NoneType is not subscriptable", g2)
    else (Except.ok (getState s2), g2)

/-- Discriminator for `Except` results. -/
def isOkResult {ε α : Type _} : Except ε α → Bool
  | Except.ok _ => true
  | Except.error _ => false

/-- The square of offsets indexed by the kernel: `[-r, r] × [-r, r]`. -/
def kernelDomain (r : ℕ) : Finset (ℤ × ℤ) :=
  Finset.Icc (-(r : ℤ)) r ×ˢ Finset.Icc (-(r : ℤ)) r

open Classical in
/-- The raw (pre-normalisation) kernel weight at offset `p`
(`Simulation._create_migration_kernel`, lines 150-154): `1/(1+d)²` on the mask
`0 < d ≤ r`, `0` elsewhere, with the centre explicitly zeroed; `dist` is the
Euclidean distance of the offset (instantiated with `Real.sqrt` in the
theorems, since it is irrational). -/
noncomputable def rawKernelEntry (dist : ℤ → ℤ → ℝ) (r : ℕ) (p : ℤ × ℤ) : ℝ :=
  if p = (0, 0) then 0
  else if 0 < dist p.1 p.2 ∧ dist p.1 p.2 ≤ (r : ℝ) then 1 / (1 + dist p.1 p.2)^2
  else 0

/-- The sum of the raw kernel weights (`kernel.sum()` after the centre is zeroed). -/
noncomputable def rawKernelSum (dist : ℤ → ℤ → ℝ) (r : ℕ) : ℝ :=
  ∑ p ∈ kernelDomain r, rawKernelEntry dist r p

open Classical in
/-- The final kernel weight at offset `p`
(`Simulation._create_migration_kernel`, lines 155-157): non-centre weights are
scaled by `diffusion_rate / sum` when the raw sum is positive, and the centre is
set to `1 - diffusion_rate`. -/
noncomputable def migrationKernelEntry (dist : ℤ → ℤ → ℝ) (r : ℕ) (dr : ℝ)
    (p : ℤ × ℤ) : ℝ :=
  if p = (0, 0) then 1 - dr
  else if 0 < rawKernelSum dist r then rawKernelEntry dist r p / rawKernelSum dist r * dr
  else rawKernelEntry dist r p

/-! ### Concrete instances used by the witnesses -/

/-- 1×1 all-zero grid. -/
def zeros1 : Grid 1 1 := fun _ _ => 0

/-- 3×3 all-zero grid. -/
def zeros3 : Grid 3 3 := fun _ _ => 0

/-- 3×3 all-one grid. -/
def ones3 : Grid 3 3 := fun _ _ => 1

/-- 3×3 grid with a single unit of population at the centre. -/
def centerOne3 : Grid 3 3 := fun i j => if i.val = 1 ∧ j.val = 1 then 1 else 0

/-- Identity (Dirac) kernel weight array. -/
def deltaKernel : ℤ → ℤ → ℚ := fun a b => if a = 0 ∧ b = 0 then 1 else 0

/-- 5×5 all-one biomass grid. -/
def ones5 : Grid 5 5 := fun _ _ => 1

/-- A started 1×1 simulation state. -/
def state11 : SimState 1 1 :=
  { cfg := defaultConfig
    kernel := fun _ _ => 0
    kradius := 2
    biomass := fun _ _ => 0
    maxBiomass := fun _ _ => 0
    population := fun _ _ => 0
    cellSize := 1
    year := 0 }

/-- Globals of a session whose simulation has been started. -/
def globals11 : PyGlobals 1 1 :=
  { biomassData := none
    cellSizeKm := 1
    sim := some state11 }

/-! ### Helper lemmas -/

theorem gridSum_mul_const (P : Grid h w) (c : ℚ) :
    gridSum (fun i j => P i j * c) = gridSum P * c := by
  simp [gridSum, Finset.sum_mul]

/- `Nat.sqrt` is defined by well-founded recursion, so kernel reduction on a
closed argument diverges; all evaluations below go through the following
equational lemmas instead. -/

theorem ratSqrtFloor_def (q : ℚ) :
    ratSqrtFloor q = Nat.sqrt (q.num.toNat * q.den) / q.den := by
  simp only [ratSqrtFloor]

theorem radiusFromCc_def (avg : ℚ) (total : ℕ) :
    radiusFromCc avg total =
      min 300 (max 30 (ratSqrtFloor
        (max (if 0 < avg then (total : ℚ) / (avg * (4/5)) else 2000) (3 * (total : ℚ))
          / (157/50)))) := by
  simp only [radiusFromCc]

theorem computeReleaseRadius_def (cfg : SimulationConfig) (bio : Grid h w)
    (row col : ℤ) (total : ℕ) :
    computeReleaseRadius cfg bio row col total =
      radiusFromCc (avgCarryCap cfg bio row col) total := by
  simp only [computeReleaseRadius]

theorem natSqrt_10028375 : Nat.sqrt 10028375 = 3166 := by
  refine ((Nat.eq_sqrt').mpr ?_).symm
  constructor
  · norm_num
  · norm_num

theorem natSqrt_23550000 : Nat.sqrt 23550000 = 4852 := by
  refine ((Nat.eq_sqrt').mpr ?_).symm
  constructor
  · norm_num
  · norm_num

theorem ratSqrtFloor_63875_157 : ratSqrtFloor (63875/157) = 20 := by
  have h1 : ((63875:ℚ)/157).num.toNat * ((63875:ℚ)/157).den = 10028375 := by
    rw [show ((63875:ℚ)/157).num = 63875 from by decide,
      show ((63875:ℚ)/157).den = 157 from by decide]
    decide
  rw [ratSqrtFloor_def, h1, show ((63875:ℚ)/157).den = 157 from by decide,
    natSqrt_10028375]

theorem ratSqrtFloor_150000_157 : ratSqrtFloor (150000/157) = 30 := by
  have h1 : ((150000:ℚ)/157).num.toNat * ((150000:ℚ)/157).den = 23550000 := by
    rw [show ((150000:ℚ)/157).num = 150000 from by decide,
      show ((150000:ℚ)/157).den = 157 from by decide]
    decide
  rw [ratSqrtFloor_def, h1, show ((150000:ℚ)/157).den = 157 from by decide,
    natSqrt_23550000]

theorem radiusFromCc_50_511 : radiusFromCc (50/511) 100 = 30 := by
  rw [radiusFromCc_def,
    show (max (if 0 < (50/511:ℚ) then ((100:ℕ) : ℚ) / ((50/511) * (4/5)) else 2000)
      (3 * ((100:ℕ) : ℚ)) / (157/50)) = 63875/157 from by decide,
    ratSqrtFloor_63875_157]
  decide

theorem radiusFromCc_1_24 : radiusFromCc (1/24) 100 = 30 := by
  rw [radiusFromCc_def,
    show (max (if 0 < (1/24:ℚ) then ((100:ℕ) : ℚ) / ((1/24) * (4/5)) else 2000)
      (3 * ((100:ℕ) : ℚ)) / (157/50)) = 150000/157 from by decide,
    ratSqrtFloor_150000_157]
  decide

set_option maxRecDepth 4000 in
theorem avgCarryCap_ones5 : avgCarryCap defaultConfig ones5 2 2 = 50/511 := by
  decide

theorem releaseRadius_ones5 : computeReleaseRadius defaultConfig ones5 2 2 100 = 30 := by
  rw [computeReleaseRadius_def, avgCarryCap_ones5, radiusFromCc_50_511]

/-- `ratSqrtFloor` agrees with the floor of the real square root on non-negative
rationals, so the embedding of `int(np.sqrt(q))` is exact. -/
theorem ratSqrtFloor_eq_floor_sqrt (q : ℚ) (hq : 0 ≤ q) :
    ratSqrtFloor q = ⌊Real.sqrt (q : ℝ)⌋₊ := by
  have hnum : ((q.num.toNat : ℕ) : ℝ) = (q.num : ℝ) := by
    exact_mod_cast Int.toNat_of_nonneg (Rat.num_nonneg.mpr hq)
  have hden : (0:ℝ) < (q.den : ℝ) := by
    exact_mod_cast q.pos
  have hq' : (q : ℝ) = ((q.num.toNat * q.den : ℕ) : ℝ) / ((q.den : ℝ))^2 := by
    rw [Rat.cast_def]
    push_cast
    rw [hnum]
    field_simp
    ring
  rw [ratSqrtFloor_def, hq', Real.sqrt_div (by positivity) _, Real.sqrt_sq hden.le,
    Nat.floor_div_nat, Real.nat_floor_real_sqrt_eq_nat_sqrt]

/-! ### Claims -/

/-- C1: for every population grid whose total is at least 0.1 and for which the mass
remaining after water/border masking is positive, the total population after the
migration sub-step equals the total before it (exactly, in exact arithmetic),
because the result is rescaled by `total_before / total_after` whenever
`total_after > 0`. -/
theorem migrate_conserves_total (cfg : SimulationConfig) (K : ℤ → ℤ → ℚ)
    (r : ℕ) (maxB P cap : Grid h w)
    (h1 : 1/10 ≤ gridSum P)
    (h2 : 0 < gridSum (migratePreRescale cfg K r maxB P cap)) :
    gridSum (migrate cfg K r maxB P cap) = gridSum P := by
  unfold migrate
  rw [if_neg (not_lt.mpr h1), if_pos h2, gridSum_mul_const, mul_comm,
    div_mul_cancel₀ _ (ne_of_gt h2)]

/-- Witness for C1 at a concrete 3×3 input: all-land grid, unit population at the
centre, Dirac kernel, flat carrying capacity. -/
theorem migrate_conserves_total_witness :
    1/10 ≤ gridSum centerOne3 ∧
    0 < gridSum (migratePreRescale defaultConfig deltaKernel 2 ones3 centerOne3 zeros3) ∧
    gridSum (migrate defaultConfig deltaKernel 2 ones3 centerOne3 zeros3) =
      gridSum centerOne3 :=
  ⟨by decide, by decide,
    migrate_conserves_total defaultConfig deltaKernel 2 ones3 centerOne3 zeros3
      (by decide) (by decide)⟩

set_option maxRecDepth 16000 in
/-- C2, counterexample: on the 5×5 all-one biomass grid seeded at the centre with
100 animals (release radius 30, so the whole grid is in the seeding disk) and
Poisson draws realising 1 everywhere, the border cell `(0,0)` receives
population `4 ≠ 0` immediately after `initialize` — the seeding masks only
off-land cells, not the border ring. -/
theorem seeded_border_cell_nonzero :
    (initState defaultConfig ones5 1 2 2 100 deltaKernel (fun _ _ => 1)).population 0 0
      ≠ 0 := by
  show seedPopulation ones5 2 2 (computeReleaseRadius defaultConfig ones5 2 2 100) 100
    (fun _ _ => 1) 0 0 ≠ 0
  rw [releaseRadius_ones5]
  decide

/-- C2, amended: border and water cells carry population 0 after every migration
sub-step that actually runs (total ≥ 0.1); seeding zeroes water cells
(`biomass ≤ 0`) but may populate border land cells; and a zero cell stays zero
through the growth sub-step. -/
theorem masking_invariant_amended (cfg : SimulationConfig) (K : ℤ → ℤ → ℚ) (r : ℕ)
    (maxB P cap bio food : Grid h w) (cr cc : ℤ) (radius total : ℕ)
    (draws : Fin h → Fin w → ℕ) (i : Fin h) (j : Fin w) :
    (¬ gridSum P < 1/10 →
      (maxB i j ≤ 0 ∨ i.val = 0 ∨ i.val = h - 1 ∨ j.val = 0 ∨ j.val = w - 1) →
      migrate cfg K r maxB P cap i j = 0)
    ∧ (bio i j ≤ 0 → seedPopulation bio cr cc radius total draws i j = 0)
    ∧ (P i j = 0 → updatePopulation cfg P cap food i j = 0) := by
  refine ⟨?_, ?_, ?_⟩
  · intro hrun hmask
    have hpre : migratePreRescale cfg K r maxB P cap i j = 0 := by
      unfold migratePreRescale
      rw [if_pos hmask]
    unfold migrate
    rw [if_neg hrun]
    by_cases hta : 0 < gridSum (migratePreRescale cfg K r maxB P cap)
    · rw [if_pos hta]
      show migratePreRescale cfg K r maxB P cap i j * _ = 0
      rw [hpre, zero_mul]
    · rw [if_neg hta]
      exact hpre
  · intro hbio
    have hnv : ¬ seedValid bio cr cc radius i j := fun hv =>
      absurd hv.2.2 (not_lt.mpr hbio)
    unfold seedPopulation
    by_cases hall : ∀ a b, ¬ seedValid bio cr cc radius a b
    · rw [if_pos hall]
    · rw [if_neg hall]
      simp only [if_neg hnv]
      split_ifs <;> simp
  · intro hz
    unfold updatePopulation
    rw [hz]
    simp [clip]

/-- Witness for the amended C2 at concrete 3×3 grids and the border cell `(0,0)`. -/
theorem masking_invariant_amended_witness :
    migrate defaultConfig deltaKernel 2 ones3 centerOne3 zeros3 0 0 = 0 ∧
    seedPopulation zeros3 2 2 30 100 (fun _ _ => 1) 0 0 = 0 ∧
    updatePopulation defaultConfig centerOne3 zeros3 zeros3 0 0 = 0 := by
  obtain ⟨m1, m2, m3⟩ := masking_invariant_amended defaultConfig deltaKernel 2
    ones3 centerOne3 zeros3 zeros3 zeros3 2 2 30 100 (fun _ _ => 1) 0 0
  exact ⟨m1 (by decide) (by decide), m2 (by decide), m3 (by decide)⟩

/-- C3: in the growth sub-step, a cell with food satisfaction at most the starvation
threshold and population at least `epsilon` gets the starvation growth factor
`-max_growth_rate * (1 - food/starvation_threshold)` before clipping, regardless
of viability or capacity ratio. -/
theorem starvation_overrides_branches (cfg : SimulationConfig) (pop cap food : ℚ)
    (hfood : food ≤ cfg.starvation_threshold) (hpop : epsilon ≤ pop) :
    growthFactorPreClip cfg pop cap food =
      -cfg.max_growth_rate * (1 - food / cfg.starvation_threshold) := by
  simp only [growthFactorPreClip]
  rw [if_neg (not_lt.mpr hpop), if_neg (not_lt.mpr hfood)]

/-- Witness for C3: default config, population 1, zero food satisfaction. -/
theorem starvation_overrides_branches_witness :
    (0 : ℚ) ≤ defaultConfig.starvation_threshold ∧ epsilon ≤ (1 : ℚ) ∧
    growthFactorPreClip defaultConfig 1 0 0 =
      -defaultConfig.max_growth_rate * (1 - 0 / defaultConfig.starvation_threshold) :=
  ⟨by decide, by decide,
    starvation_overrides_branches defaultConfig 1 0 0 (by decide) (by decide)⟩

/-- C4, counterexample: at `cells_per_year = 10.8` (e.g. `annual_migration_km = 54/5`,
`cell_size_km = 1`) the code truncates `10.8/4 = 2.7` to radius 2, while the
claimed `clamp(round(cellsPerYear/4), 2, 5)` gives 3. -/
theorem kernelRadius_round_cx :
    kernelRadius (54/5) 1 = 2 ∧ kernelRadiusSpec (54/5) 1 = 3 ∧
    kernelRadius (54/5) 1 ≠ kernelRadiusSpec (54/5) 1 := by
  refine ⟨by decide, by decide, by decide⟩

/-- C4, amended: for positive migration distance and cell size the kernel radius is
`clamp(⌊cellsPerYear/4⌋, 2, 5)` — truncation (= floor on non-negatives), not
rounding. -/
theorem kernelRadius_floor_clamp (mig cell : ℚ) (hm : 0 < mig) (hc : 0 < cell) :
    kernelRadius mig cell = (min 5 (max 2 ⌊mig / (cell * 4)⌋)).toNat := by
  unfold kernelRadius pyInt
  rw [if_pos (by positivity), div_div]

/-- Witness for the amended C4 at `annual_migration_km = 50`, `cell_size_km = 1`. -/
theorem kernelRadius_floor_clamp_witness :
    0 < (50 : ℚ) ∧ 0 < (1 : ℚ) ∧
    kernelRadius 50 1 = (min 5 (max 2 ⌊(50 : ℚ) / (1 * 4)⌋)).toNat :=
  ⟨by norm_num, by norm_num, kernelRadius_floor_clamp 50 1 (by norm_num) (by norm_num)⟩

/-- Evaluation of the spec's release-radius formula at carrying capacity `1/24` and
total population 100: the area is 3000 and `round(sqrt(3000/π)) = 31`. -/
theorem radiusFromCcSpec_1_24 : radiusFromCcSpec (1/24) 100 = 31 := by
  have hpi1 := Real.pi_gt_d6
  have hpi2 := Real.pi_lt_d2
  have hpos := Real.pi_pos
  have harea : max (((100:ℕ):ℝ) / (((1/24 : ℚ) : ℝ) * (4/5))) (3 * ((100:ℕ):ℝ))
      = 3000 := by
    push_cast
    norm_num
  have hsq : round (Real.sqrt (3000 / Real.pi)) = 31 := by
    have h30 : (61/2 : ℝ) ≤ Real.sqrt (3000 / Real.pi) := by
      rw [Real.le_sqrt' (by norm_num), le_div_iff₀ hpos]
      nlinarith
    have h31 : Real.sqrt (3000 / Real.pi) < 63/2 := by
      rw [Real.sqrt_lt' (by norm_num), div_lt_iff₀ hpos]
      nlinarith
    rw [round_eq, Int.floor_eq_iff]
    constructor
    · push_cast
      linarith
    · push_cast
      linarith
  unfold radiusFromCcSpec
  rw [harea, hsq]
  decide

/-- C5, counterexample: at carrying capacity `1/24` and total population 100 the
code computes radius 30 (`int(sqrt(3000/3.14)) = 30`), while the claimed
`clamp(round(sqrt(area/π)), 30, 300)` gives 31. -/
theorem releaseRadius_spec_cx :
    radiusFromCc (1/24) 100 = 30 ∧ radiusFromCcSpec (1/24) 100 = 31 ∧
    radiusFromCc (1/24) 100 ≠ radiusFromCcSpec (1/24) 100 := by
  refine ⟨radiusFromCc_1_24, radiusFromCcSpec_1_24, ?_⟩
  rw [radiusFromCc_1_24, radiusFromCcSpec_1_24]
  decide

/-- C5, amended: for positive carrying capacity the release radius is
`clamp(⌊sqrt(area / 3.14)⌋, 30, 300)` — floor (= Python `int` on non-negatives)
and the literal `3.14`, not rounding and `π`. -/
theorem releaseRadius_floor_sqrt (avg : ℚ) (total : ℕ) (havg : 0 < avg) :
    radiusFromCc avg total = min 300 (max 30
      ⌊Real.sqrt (max ((total:ℝ) / ((avg:ℝ) * (4/5))) (3 * (total:ℝ)) / (157/50))⌋₊) := by
  have hnn : (0:ℚ) ≤ max ((total:ℚ) / (avg * (4/5))) (3 * (total:ℚ)) / (157/50) :=
    div_nonneg (le_trans (by positivity) (le_max_right _ _)) (by norm_num)
  have hcast : ((max ((total:ℚ) / (avg * (4/5))) (3 * (total:ℚ)) / (157/50) : ℚ) : ℝ)
      = max ((total:ℝ) / ((avg:ℝ) * (4/5))) (3 * (total:ℝ)) / (157/50) := by
    push_cast
    ring_nf
  rw [radiusFromCc_def, if_pos havg, ratSqrtFloor_eq_floor_sqrt _ hnn, hcast]

/-- Witness for the amended C5 at carrying capacity 1 and total population 1. -/
theorem releaseRadius_floor_sqrt_witness :
    0 < (1:ℚ) ∧ radiusFromCc 1 1 = min 300 (max 30
      ⌊Real.sqrt (max (((1:ℕ):ℝ) / (((1:ℚ):ℝ) * (4/5))) (3 * ((1:ℕ):ℝ)) / (157/50))⌋₊) :=
  ⟨by norm_num, releaseRadius_floor_sqrt 1 1 (by norm_num)⟩

/-- The kernel radius is always clamped into `[2, 5]`. -/
theorem kernelRadius_bounds (mig cell : ℚ) :
    2 ≤ kernelRadius mig cell ∧ kernelRadius mig cell ≤ 5 := by
  unfold kernelRadius
  omega

theorem rawKernelEntry_nonneg (dist : ℤ → ℤ → ℝ) (r : ℕ) (p : ℤ × ℤ) :
    0 ≤ rawKernelEntry dist r p := by
  unfold rawKernelEntry
  split_ifs
  · exact le_refl 0
  · exact div_nonneg zero_le_one (sq_nonneg _)
  · exact le_refl 0

theorem rawKernelEntry_center (dist : ℤ → ℤ → ℝ) (r : ℕ) :
    rawKernelEntry dist r (0, 0) = 0 := by
  unfold rawKernelEntry
  rw [if_pos rfl]

theorem rawKernelEntry_zero_one (dist : ℤ → ℤ → ℝ) (r : ℕ)
    (hdist : ∀ a b : ℤ, dist a b = Real.sqrt ((a:ℝ)^2 + (b:ℝ)^2)) (hr : 1 ≤ r) :
    rawKernelEntry dist r ((0:ℤ), (1:ℤ)) = 1/4 := by
  have hd : dist 0 1 = 1 := by
    rw [hdist]
    push_cast
    norm_num [Real.sqrt_one]
  unfold rawKernelEntry
  rw [if_neg (by decide), if_pos ⟨by rw [hd]; norm_num, by rw [hd]; exact_mod_cast hr⟩, hd]
  norm_num

theorem center_mem_kernelDomain (r : ℕ) : ((0:ℤ), (0:ℤ)) ∈ kernelDomain r := by
  simp only [kernelDomain, Finset.mem_product, Finset.mem_Icc]
  omega

theorem rawKernelSum_pos (dist : ℤ → ℤ → ℝ) (r : ℕ)
    (hdist : ∀ a b : ℤ, dist a b = Real.sqrt ((a:ℝ)^2 + (b:ℝ)^2)) (hr : 1 ≤ r) :
    0 < rawKernelSum dist r := by
  unfold rawKernelSum
  apply Finset.sum_pos' (fun p _ => rawKernelEntry_nonneg dist r p)
  refine ⟨((0:ℤ), (1:ℤ)), ?_, ?_⟩
  · simp only [kernelDomain, Finset.mem_product, Finset.mem_Icc]
    omega
  · rw [rawKernelEntry_zero_one dist r hdist hr]
    norm_num

theorem rawKernelEntry_rotate (dist : ℤ → ℤ → ℝ) (r : ℕ)
    (hdist : ∀ a b : ℤ, dist a b = Real.sqrt ((a:ℝ)^2 + (b:ℝ)^2)) (p : ℤ × ℤ) :
    rawKernelEntry dist r (p.2, -p.1) = rawKernelEntry dist r p := by
  have hd : dist p.2 (-p.1) = dist p.1 p.2 := by
    rw [hdist, hdist]
    push_cast
    ring_nf
  have hcent : ((p.2, -p.1) : ℤ × ℤ) = (0, 0) ↔ p = (0, 0) := by
    constructor
    · intro hc
      have h1 : p.2 = 0 := congrArg Prod.fst hc
      have h2 : -p.1 = 0 := congrArg Prod.snd hc
      exact Prod.ext (by omega) h1
    · intro hc
      rw [hc]
      decide
  unfold rawKernelEntry
  by_cases hp : p = (0, 0)
  · rw [if_pos (hcent.mpr hp), if_pos hp]
  · rw [if_neg (fun hc => hp (hcent.mp hc)), if_neg hp, hd]

/-- C6: for a valid config (diffusion rate in `[0,1]`, positive migration distance
and cell size) the constructed kernel has non-centre weights summing to the
diffusion rate, centre weight `1 - diffusion_rate` (hence total weight 1), and is
invariant under 90° rotation of the offsets. -/
theorem migration_kernel_normalized (dist : ℤ → ℤ → ℝ) (mig cell : ℚ) (dr : ℝ)
    (r : ℕ) (hr : r = kernelRadius mig cell)
    (hdist : ∀ a b : ℤ, dist a b = Real.sqrt ((a:ℝ)^2 + (b:ℝ)^2))
    (hm : 0 < mig) (hc : 0 < cell) (h0 : 0 ≤ dr) (h1 : dr ≤ 1) :
    (∑ p ∈ (kernelDomain r).erase (0, 0), migrationKernelEntry dist r dr p) = dr
    ∧ migrationKernelEntry dist r dr (0, 0) = 1 - dr
    ∧ (∑ p ∈ kernelDomain r, migrationKernelEntry dist r dr p) = 1
    ∧ (∀ p : ℤ × ℤ, migrationKernelEntry dist r dr (p.2, -p.1)
        = migrationKernelEntry dist r dr p) := by
  have hr1 : 1 ≤ r := by
    have := (kernelRadius_bounds mig cell).1
    omega
  have hS := rawKernelSum_pos dist r hdist hr1
  have hcenter : migrationKernelEntry dist r dr (0, 0) = 1 - dr := by
    unfold migrationKernelEntry
    rw [if_pos rfl]
  have hnoncenter :
      (∑ p ∈ (kernelDomain r).erase (0, 0), migrationKernelEntry dist r dr p) = dr := by
    have step1 : (∑ p ∈ (kernelDomain r).erase (0, 0), migrationKernelEntry dist r dr p)
        = ∑ p ∈ (kernelDomain r).erase (0, 0), rawKernelEntry dist r p / rawKernelSum dist r * dr := by
      refine Finset.sum_congr rfl (fun p hp => ?_)
      unfold migrationKernelEntry
      rw [if_neg (Finset.ne_of_mem_erase hp), if_pos hS]
    have step2 : (∑ p ∈ (kernelDomain r).erase (0, 0), rawKernelEntry dist r p)
        = rawKernelSum dist r := by
      rw [Finset.sum_erase_eq_sub (center_mem_kernelDomain r),
        rawKernelEntry_center, sub_zero]
      rfl
    rw [step1, ← Finset.sum_mul, ← Finset.sum_div, step2, div_self (ne_of_gt hS), one_mul]
  refine ⟨hnoncenter, hcenter, ?_, ?_⟩
  · rw [← Finset.sum_erase_add _ _ (center_mem_kernelDomain r), hnoncenter, hcenter]
    ring
  · intro p
    have hcent : ((p.2, -p.1) : ℤ × ℤ) = (0, 0) ↔ p = (0, 0) := by
      constructor
      · intro hc
        have h1 : p.2 = 0 := congrArg Prod.fst hc
        have h2 : -p.1 = 0 := congrArg Prod.snd hc
        exact Prod.ext (by omega) h1
      · intro hc
        rw [hc]
        decide
    unfold migrationKernelEntry
    by_cases hp : p = (0, 0)
    · rw [if_pos (hcent.mpr hp), if_pos hp]
    · rw [if_neg (fun hcc => hp (hcent.mp hcc)), if_neg hp,
        rawKernelEntry_rotate dist r hdist p]

/-- Witness for C6 at the default config (`annual_migration_km = 50`,
`cell_size_km = 1`, so radius 5, and `diffusion_rate = 0.15`), with the genuine
Euclidean distance. -/
theorem migration_kernel_normalized_witness :
    5 = kernelRadius 50 1 ∧ 0 ≤ (3/20 : ℝ) ∧ (3/20 : ℝ) ≤ 1 ∧
    ((∑ p ∈ (kernelDomain 5).erase (0, 0),
        migrationKernelEntry (fun a b : ℤ => Real.sqrt ((a:ℝ)^2 + (b:ℝ)^2)) 5 (3/20) p)
        = 3/20
      ∧ migrationKernelEntry (fun a b : ℤ => Real.sqrt ((a:ℝ)^2 + (b:ℝ)^2)) 5 (3/20) (0, 0)
        = 1 - 3/20
      ∧ (∑ p ∈ kernelDomain 5,
          migrationKernelEntry (fun a b : ℤ => Real.sqrt ((a:ℝ)^2 + (b:ℝ)^2)) 5 (3/20) p) = 1
      ∧ (∀ p : ℤ × ℤ,
          migrationKernelEntry (fun a b : ℤ => Real.sqrt ((a:ℝ)^2 + (b:ℝ)^2)) 5 (3/20)
            (p.2, -p.1)
          = migrationKernelEntry (fun a b : ℤ => Real.sqrt ((a:ℝ)^2 + (b:ℝ)^2)) 5 (3/20) p)) :=
  ⟨by decide, by norm_num, by norm_num,
    migration_kernel_normalized (fun a b : ℤ => Real.sqrt ((a:ℝ)^2 + (b:ℝ)^2)) 50 1 (3/20) 5
      (by decide) (fun a b => rfl) (by norm_num) (by norm_num) (by norm_num) (by norm_num)⟩

/-- C7: when the total population is below 0.1 the migration sub-step returns the
population grid unchanged, cell by cell. -/
theorem migrate_noop_below_threshold (cfg : SimulationConfig) (K : ℤ → ℤ → ℚ)
    (r : ℕ) (maxB P cap : Grid h w) (hlt : gridSum P < 1/10) :
    migrate cfg K r maxB P cap = P := by
  unfold migrate
  rw [if_pos hlt]

/-- Witness for C7: the all-zero 3×3 population grid. -/
theorem migrate_noop_below_threshold_witness :
    gridSum zeros3 < 1/10 ∧
    migrate defaultConfig deltaKernel 2 ones3 zeros3 zeros3 = zeros3 :=
  ⟨by decide,
    migrate_noop_below_threshold defaultConfig deltaKernel 2 ones3 zeros3 zeros3
      (by decide)⟩

/-- C8: from non-negative biomass and population grids, one full step keeps every
biomass cell ≥ 0 (floor at 0 after regrowth minus consumption) and every
population cell ≥ 0 (clip to `[0, 1e6]` in the growth sub-step). -/
theorem step_nonneg (cfg : SimulationConfig) (K : ℤ → ℤ → ℚ) (r : ℕ)
    (maxB B P : Grid h w)
    (hB : ∀ i j, 0 ≤ B i j) (hP : ∀ i j, 0 ≤ P i j) (i : Fin h) (j : Fin w) :
    0 ≤ (stepGrids cfg K r maxB B P).1 i j ∧ 0 ≤ (stepGrids cfg K r maxB B P).2 i j := by
  constructor
  · exact le_max_left _ _
  · exact le_min (by norm_num) (le_max_left _ _)

/-- Witness for C8 on a 1×1 all-zero state. -/
theorem step_nonneg_witness :
    (∀ i j, (0 : ℚ) ≤ zeros1 i j) ∧
    (0 ≤ (stepGrids defaultConfig deltaKernel 2 zeros1 zeros1 zeros1).1 0 0 ∧
      0 ≤ (stepGrids defaultConfig deltaKernel 2 zeros1 zeros1 zeros1).2 0 0) :=
  ⟨fun _ _ => le_refl 0,
    step_nonneg defaultConfig deltaKernel 2 zeros1 zeros1 zeros1
      (fun _ _ => le_refl 0) (fun _ _ => le_refl 0) 0 0⟩

/-- C9: calling `step_simulation` when no simulation has been started returns the
"Simulation not started" error and leaves the globals unchanged. -/
theorem step_before_start_error (g : PyGlobals h w) (years : ℕ)
    (hg : g.sim = none) :
    stepSimulation g years = (Except.error "Simulation not started", g) := by
  unfold stepSimulation
  rw [hg]

/-- Witness for C9 on globals holding loaded data but no started simulation. -/
theorem step_before_start_error_witness :
    (PyGlobals.mk (some (fun _ _ => 1)) 1 none : PyGlobals 1 1).sim = none ∧
    stepSimulation (PyGlobals.mk (some (fun _ _ => 1)) 1 none : PyGlobals 1 1) 1 =
      (Except.error "Simulation not started", PyGlobals.mk (some (fun _ _ => 1)) 1 none) :=
  ⟨rfl, step_before_start_error _ 1 rfl⟩

/-- C10: with a started simulation, `step_simulation(years)` returns a snapshot
exactly when `years ≥ 1`; at `years = 0` the loop body never runs and
subscripting the still-`None` local raises instead. -/
theorem step_years_ok_iff (g : PyGlobals h w) (s : SimState h w)
    (hg : g.sim = some s) (years : ℕ) :
    isOkResult (stepSimulation g years).1 = true ↔ 1 ≤ years := by
  simp only [stepSimulation, hg]
  cases years with
  | zero => simp [isOkResult]
  | succ n => simp [isOkResult]

/-- Witness for C10 on a started 1×1 simulation with `years = 1`. -/
theorem step_years_ok_iff_witness :
    globals11.sim = some state11 ∧
    (isOkResult (stepSimulation globals11 1).1 = true ↔ 1 ≤ 1) :=
  ⟨rfl, step_years_ok_iff globals11 state11 rfl 1⟩

end BisonSim
